import Mathlib

set_option maxRecDepth 100000

/-!
Shallow embedding of the DCF valuation engine of the niveshak-ai repository.

Python floats are modelled as exact rationals (ℚ); a Python statement that can
raise `ZeroDivisionError` or `IndexError` is modelled in the `Except String`
monad, so a run of the engine either returns a result record or fails, exactly
as the source either returns a dict or raises.

Embedded source files:
* `src/analysis/dcf_calculation.py` — `dcf_intrinsic_valuation`
* `src/utils/financial_utils.py`    — `calculate_terminal_value`, `project_cash_flows`
* `src/analysis/valuation.py`       — class `DCFAnalyzer`
* `src/analysis/symbol_stock_analyzer.py` — `determine_valuation_status`
-/

namespace Niveshak

/-- Python float division: `a / b` raises `ZeroDivisionError` when `b == 0`. -/
def pydiv (a b : ℚ) : Except String ℚ :=
  if b = 0 then Except.error "ZeroDivisionError" else Except.ok (a / b)

/-- The growth rate picked inside the projection loop of
`dcf_intrinsic_valuation` (`src/analysis/dcf_calculation.py`):
`growth = fcf_growth_rate_5yr if i < 5 else fcf_growth_rate_10yr`
(`i` is the 0-indexed loop counter, i.e. year `i + 1`). -/
def segGrowth (g5 g10 : ℚ) (i : ℕ) : ℚ :=
  if i < 5 then g5 else g10

/-- The projection loop of `dcf_intrinsic_valuation`: `prev` is the FCF the
current year grows off (`base_fcf` when `i == 0`, else `projected_fcfs[-1]`),
`i` the 0-indexed loop counter, and the third argument the number of loop
iterations still to run. -/
def projectFcfsFrom (g5 g10 : ℚ) : ℚ → ℕ → ℕ → List ℚ
  | _, _, 0 => []
  | prev, i, n + 1 =>
      let growth := segGrowth g5 g10 i
      let fcf := prev * (1 + growth)
      fcf :: projectFcfsFrom g5 g10 fcf (i + 1) n

/-- `projected_fcfs` after the loop `for i in range(years)` of
`dcf_intrinsic_valuation`. -/
def projectFcfs (base_fcf g5 g10 : ℚ) (years : ℕ) : List ℚ :=
  projectFcfsFrom g5 g10 base_fcf 0 years

/-- Pure closed form of the loop: value produced at offset `k` when the loop
starts from accumulated FCF `prev` at loop counter `i`. -/
def fcfSeq (g5 g10 prev : ℚ) (i : ℕ) : ℕ → ℚ
  | 0 => prev * (1 + segGrowth g5 g10 i)
  | k + 1 => fcfSeq g5 g10 prev i k * (1 + segGrowth g5 g10 (i + k + 1))

/-- The FCF projected for (0-indexed) year `k` of `dcf_intrinsic_valuation`. -/
def fcfAt (base_fcf g5 g10 : ℚ) (k : ℕ) : ℚ :=
  fcfSeq g5 g10 base_fcf 0 k

/-- The list comprehension
`pv_fcfs = [fcf / ((1 + discount_rate) ** (i + 1)) for i, fcf in enumerate(projected_fcfs)]`:
`i` starts at the given index and each element may raise `ZeroDivisionError`. -/
def pvList (discount_rate : ℚ) : ℕ → List ℚ → Except String (List ℚ)
  | _, [] => Except.ok []
  | i, fcf :: rest => do
      let pv ← pydiv fcf ((1 + discount_rate) ^ (i + 1))
      let tail ← pvList discount_rate (i + 1) rest
      Except.ok (pv :: tail)

/-- Pure counterpart of `pvList` (the value it returns when no division by
zero occurs). -/
def pvListPure (discount_rate : ℚ) : ℕ → List ℚ → List ℚ
  | _, [] => []
  | i, fcf :: rest =>
      fcf / ((1 + discount_rate) ^ (i + 1)) :: pvListPure discount_rate (i + 1) rest

/-- `number_of_shares = share_capital / face_value if face_value else 1.0`
(Python truthiness: `face_value == 0` selects the `else` branch, so this line
itself never divides by zero). -/
def numberOfShares (share_capital face_value : ℚ) : ℚ :=
  if face_value ≠ 0 then share_capital / face_value else 1

/-- Result dict of `dcf_intrinsic_valuation`.  The source dict carries the
same value twice under the keys "PV of Terminal Value" and
"Present Value of Terminal Value"; it is one field here. -/
structure DCFResult where
  projected_fcfs : List ℚ
  total_pv_fcfs : ℚ
  pv_terminal_value : ℚ
  enterprise_value : ℚ
  total_debt : ℚ
  cash_and_equivalents : ℚ
  net_debt : ℚ
  equity_value : ℚ
  share_capital : ℚ
  face_value : ℚ
  number_of_shares : ℚ
  intrinsic_share_price : ℚ
  model_error_leeway_pct : ℚ
  lower_band : ℚ
  upper_band : ℚ
  margin_of_safety_pct : ℚ
  final_value_mos : ℚ
  terminal_year_cash_flow : ℚ
  terminal_value : ℚ
  deriving Repr, DecidableEq

/-- `dcf_intrinsic_valuation` from `src/analysis/dcf_calculation.py`, statement
by statement.  `years` is a count of projection years (the source default is
10; a negative Python `int` would make `range(years)` empty, the same as 0).
The function performs no input validation: the only failures are the
`ZeroDivisionError`s and the `IndexError` (`projected_fcfs[-1]` on an empty
list) that the arithmetic itself raises. -/
def dcf_intrinsic_valuation
    (base_fcf fcf_growth_rate_5yr fcf_growth_rate_10yr terminal_growth_rate
     discount_rate total_debt cash_and_equivalents share_capital face_value
     model_error_leeway margin_of_safety : ℚ) (years : ℕ) :
    Except String DCFResult := do
  let number_of_shares := numberOfShares share_capital face_value
  let projected_fcfs := projectFcfs base_fcf fcf_growth_rate_5yr fcf_growth_rate_10yr years
  let pv_fcfs ← pvList discount_rate 0 projected_fcfs
  let total_pv_fcfs := pv_fcfs.sum
  let terminal_year_cflow ←
    match projected_fcfs.getLast? with
    | some x => Except.ok x
    | none => Except.error "IndexError"
  let terminal_value ←
    pydiv (terminal_year_cflow * (1 + terminal_growth_rate))
      (discount_rate - terminal_growth_rate)
  let pv_terminal_value ← pydiv terminal_value ((1 + discount_rate) ^ years)
  let enterprise_value := total_pv_fcfs + pv_terminal_value
  let net_debt := total_debt - cash_and_equivalents
  let equity_value := enterprise_value - net_debt
  let intrinsic_share_price ← pydiv equity_value number_of_shares
  let lower_band := intrinsic_share_price * (1 - model_error_leeway)
  let upper_band := intrinsic_share_price * (1 + model_error_leeway)
  let final_value_mos := intrinsic_share_price * (1 - margin_of_safety)
  Except.ok
    { projected_fcfs := projected_fcfs
      total_pv_fcfs := total_pv_fcfs
      pv_terminal_value := pv_terminal_value
      enterprise_value := enterprise_value
      total_debt := total_debt
      cash_and_equivalents := cash_and_equivalents
      net_debt := net_debt
      equity_value := equity_value
      share_capital := share_capital
      face_value := face_value
      number_of_shares := number_of_shares
      intrinsic_share_price := intrinsic_share_price
      model_error_leeway_pct := model_error_leeway * 100
      lower_band := lower_band
      upper_band := upper_band
      margin_of_safety_pct := margin_of_safety * 100
      final_value_mos := final_value_mos
      terminal_year_cash_flow := terminal_year_cflow
      terminal_value := terminal_value }

/-- `calculate_terminal_value` from `src/utils/financial_utils.py`: the body
raises `ValueError` when `discount_rate <= terminal_growth_rate`, but the
enclosing `except Exception` swallows it and returns `0`, so the caller always
receives a number. -/
def calculate_terminal_value (final_cf terminal_growth_rate discount_rate : ℚ) : ℚ :=
  if discount_rate ≤ terminal_growth_rate then 0
  else final_cf * (1 + terminal_growth_rate) / (discount_rate - terminal_growth_rate)

/-- The projection loop of `project_cash_flows` (`src/utils/financial_utils.py`):
`prev` is `base_cf` on the first iteration, else `projected_cf[-1]`. -/
def projectCfFrom : ℚ → List ℚ → List ℚ
  | _, [] => []
  | prev, g :: gs =>
      let cf := prev * (1 + g)
      cf :: projectCfFrom cf gs

/-- `project_cash_flows` from `src/utils/financial_utils.py`: an empty
`historical_cf` raises `ValueError`, which the enclosing `except` swallows,
returning `[]`. -/
def project_cash_flows (historical_cf : List ℚ) (growth_rates : List ℚ) : List ℚ :=
  match historical_cf with
  | [] => []
  | base_cf :: _ => projectCfFrom base_cf growth_rates

/-! ### `src/analysis/valuation.py` — class `DCFAnalyzer` -/

/-- The flat financial-data dictionary consumed by `DCFAnalyzer`.  Every field
is read in the source with `financial_data.get(key, default)`, so each is an
`Option`; the per-call-site default is applied with `Option.getD` exactly where
the source applies it. -/
structure FinancialData where
  free_cash_flow : Option ℚ := none
  revenue : Option ℚ := none
  shares_outstanding : Option ℚ := none
  current_price : Option ℚ := none
  operating_cash_flow : Option ℚ := none
  capital_expenditure : Option ℚ := none
  revenue_growth_3yr : Option ℚ := none
  fcf_growth_3yr : Option ℚ := none
  total_debt : Option ℚ := none
  cash_and_equivalents : Option ℚ := none
  roe : Option ℚ := none
  debt_to_equity : Option ℚ := none
  deriving Repr, DecidableEq

/-- The state of a `DCFAnalyzer` instance (set in `__init__`). -/
structure DCFAnalyzer where
  discount_rate : ℚ
  terminal_growth_rate : ℚ
  deriving Repr, DecidableEq

/-- Return dict of `DCFAnalyzer._get_investment_recommendation`. -/
structure Recommendation where
  action : String
  confidence : String
  upside : ℚ
  quality_score : ℕ
  deriving Repr, DecidableEq

/-- Result dict of `DCFAnalyzer.calculate_dcf_valuation` (also the shape of
`_get_fallback_dcf_result`). -/
structure DCFValuationResult where
  initial_fcf : ℚ
  growth_rates : List ℚ
  projected_fcfs : List ℚ
  present_value_fcfs : List ℚ
  terminal_value : ℚ
  pv_terminal_value : ℚ
  enterprise_value : ℚ
  net_debt : ℚ
  equity_value : ℚ
  shares_outstanding : ℚ
  intrinsic_value_per_share : ℚ
  current_price : ℚ
  margin_of_safety : ℚ
  recommendation : String
  confidence : String
  upside_potential : ℚ
  target_buy_price : ℚ
  target_sell_price : ℚ
  discount_rate : ℚ
  terminal_growth_rate : ℚ
  deriving Repr, DecidableEq

/-- `DCFAnalyzer._determine_growth_rates` (does not read `self`). -/
def determine_growth_rates (fd : FinancialData) : List ℚ :=
  let historical_growth := fd.revenue_growth_3yr.getD 5 / 100
  let fcf_growth := fd.fcf_growth_3yr.getD (historical_growth * 100) / 100
  let base_growth := if |fcf_growth| > 1/100 then fcf_growth else historical_growth
  let revenue := fd.revenue.getD 10000
  let max_growth_raw :=
    if revenue > 50000 then min (base_growth * (12/10)) (15/100)
    else if revenue > 20000 then min (base_growth * (15/10)) (20/100)
    else min (base_growth * 2) (25/100)
  let max_growth := max max_growth_raw (5/100)
  [max_growth, max_growth * (8/10), max_growth * (6/10), max_growth * (4/10),
   max_growth * (3/10)]

/-- `DCFAnalyzer._project_free_cash_flows`: the same accumulator loop as
`project_cash_flows`. -/
def project_free_cash_flows (initial_fcf : ℚ) (growth_rates : List ℚ) : List ℚ :=
  projectCfFrom initial_fcf growth_rates

/-- `DCFAnalyzer._calculate_present_values`:
`for year, fcf in enumerate(future_cash_flows, 1): pv = fcf / ((1 + self.discount_rate) ** year)`. -/
def calculate_present_values (a : DCFAnalyzer) (future_cash_flows : List ℚ) :
    Except String (List ℚ) :=
  pvList a.discount_rate 0 future_cash_flows

/-- `DCFAnalyzer._calculate_margin_of_safety`: guarded against
`current_price <= 0`, hence total. -/
def calculate_margin_of_safety (intrinsic_value current_price : ℚ) : ℚ :=
  if current_price ≤ 0 then 0
  else (intrinsic_value - current_price) / current_price * 100

/-- `DCFAnalyzer._get_investment_recommendation`.  Every threshold comparison
in the source is a strict `>`; the quality-score pass can change `confidence`
but never `action`. -/
def get_investment_recommendation (margin_of_safety : ℚ) (fd : FinancialData) :
    Recommendation :=
  let roe := fd.roe.getD 0
  let debt_to_equity := fd.debt_to_equity.getD 0
  let revenue_growth := fd.revenue_growth_3yr.getD 0
  let action :=
    if margin_of_safety > 30 then "STRONG BUY"
    else if margin_of_safety > 15 then "BUY"
    else if margin_of_safety > 0 then "BUY"
    else if margin_of_safety > -15 then "HOLD"
    else if margin_of_safety > -30 then "AVOID"
    else "STRONG AVOID"
  let confidence0 :=
    if margin_of_safety > 30 then "HIGH"
    else if margin_of_safety > 15 then "HIGH"
    else if margin_of_safety > 0 then "MEDIUM"
    else if margin_of_safety > -15 then "MEDIUM"
    else if margin_of_safety > -30 then "MEDIUM"
    else "HIGH"
  let quality_score : ℕ :=
    (if roe > 15 then 1 else 0) + (if debt_to_equity < 1/2 then 1 else 0) +
      (if revenue_growth > 5 then 1 else 0)
  let confidence :=
    if 2 ≤ quality_score ∧ (action = "BUY" ∨ action = "STRONG BUY") then "HIGH"
    else if quality_score ≤ 1 ∧ (action = "AVOID" ∨ action = "STRONG AVOID") then "HIGH"
    else confidence0
  { action := action
    confidence := confidence
    upside := margin_of_safety
    quality_score := quality_score }

/-- `DCFAnalyzer._get_fallback_dcf_result`. -/
def get_fallback_dcf_result (a : DCFAnalyzer) (fd : FinancialData) : DCFValuationResult :=
  let current_price := fd.current_price.getD 0
  { initial_fcf := 0
    growth_rates := [15/100, 12/100, 10/100, 8/100, 5/100]
    projected_fcfs := [0, 0, 0, 0, 0]
    present_value_fcfs := [0, 0, 0, 0, 0]
    terminal_value := 0
    pv_terminal_value := 0
    enterprise_value := 0
    net_debt := 0
    equity_value := 0
    shares_outstanding := fd.shares_outstanding.getD 0
    intrinsic_value_per_share := if current_price > 0 then current_price * (7/10) else 100
    current_price := current_price
    margin_of_safety := -30
    recommendation := "HOLD"
    confidence := "LOW"
    upside_potential := -30
    target_buy_price := if current_price > 0 then current_price * (5/10) else 70
    target_sell_price := if current_price > 0 then current_price * (12/10) else 120
    discount_rate := a.discount_rate
    terminal_growth_rate := a.terminal_growth_rate }

/-- The `try` block of `DCFAnalyzer.calculate_dcf_valuation`, statement by
statement.  The only statements that can raise are the divisions guarded here
by `pydiv` and the `projected_fcfs[-1]` indexing (`growth_rates` always has
five entries, so the list is in fact never empty).  The division
`equity_value / (shares_outstanding * 10)` sits under the guard
`shares_outstanding > 0` and cannot raise. -/
def calculate_dcf_valuation_body (a : DCFAnalyzer) (fd : FinancialData) :
    Except String DCFValuationResult := do
  let fcf0 := fd.free_cash_flow.getD 0
  let revenue := fd.revenue.getD 0
  let shares_outstanding := fd.shares_outstanding.getD 0
  let current_price := fd.current_price.getD 0
  let fcf :=
    if fcf0 ≤ 0 then
      let operating_cf := fd.operating_cash_flow.getD 0
      let capex := fd.capital_expenditure.getD 0
      max (operating_cf - capex) (revenue * (5/100))
    else fcf0
  let growth_rates := determine_growth_rates fd
  let projected_fcfs := project_free_cash_flows fcf growth_rates
  let pv_fcfs ← calculate_present_values a projected_fcfs
  let terminal_year ←
    match projected_fcfs.getLast? with
    | some x => Except.ok x
    | none => Except.error "IndexError"
  let terminal_fcf := terminal_year * (1 + a.terminal_growth_rate)
  let terminal_value ← pydiv terminal_fcf (a.discount_rate - a.terminal_growth_rate)
  let pv_terminal ← pydiv terminal_value ((1 + a.discount_rate) ^ projected_fcfs.length)
  let enterprise_value := pv_fcfs.sum + pv_terminal
  let net_debt := fd.total_debt.getD 0 - fd.cash_and_equivalents.getD 0
  let equity_value := enterprise_value - net_debt
  let intrinsic_value :=
    if shares_outstanding > 0 then equity_value / (shares_outstanding * 10) else 0
  let margin_of_safety := calculate_margin_of_safety intrinsic_value current_price
  let rec_dict := get_investment_recommendation margin_of_safety fd
  Except.ok
    { initial_fcf := fcf
      growth_rates := growth_rates
      projected_fcfs := projected_fcfs
      present_value_fcfs := pv_fcfs
      terminal_value := terminal_value
      pv_terminal_value := pv_terminal
      enterprise_value := enterprise_value
      net_debt := net_debt
      equity_value := equity_value
      shares_outstanding := shares_outstanding
      intrinsic_value_per_share := intrinsic_value
      current_price := current_price
      margin_of_safety := margin_of_safety
      recommendation := rec_dict.action
      confidence := rec_dict.confidence
      upside_potential := rec_dict.upside
      target_buy_price := intrinsic_value * (7/10)
      target_sell_price := intrinsic_value * (12/10)
      discount_rate := a.discount_rate
      terminal_growth_rate := a.terminal_growth_rate }

/-- `DCFAnalyzer.calculate_dcf_valuation`: the whole `try` body under
`except Exception: return self._get_fallback_dcf_result(financial_data)`,
so the method itself never raises. -/
def calculate_dcf_valuation (a : DCFAnalyzer) (fd : FinancialData) : DCFValuationResult :=
  match calculate_dcf_valuation_body a fd with
  | Except.ok r => r
  | Except.error _ => get_fallback_dcf_result a fd

/-! ### `src/analysis/symbol_stock_analyzer.py` — `determine_valuation_status` -/

/-- The two keys `determine_valuation_status` reads from its `dcf_result`
dict (each with `.get(key, 0)`). -/
structure SymbolDcfResultDict where
  intrinsic_share_price : Option ℚ := none
  final_value_with_margin_of_safety : Option ℚ := none
  deriving Repr, DecidableEq

/-- Return dict of `determine_valuation_status`.  The source also carries a
formatted human-readable `reason` string, omitted from the model. -/
structure ValuationStatusResult where
  status : String
  recommendation : String
  confidence : String
  deriving Repr, DecidableEq

/-- `SymbolStockAnalyzer.determine_valuation_status`: note the guard is
`current_price == 0`, an equality — a negative price falls through to the
comparison branches.  The `upside_downside` division in the last branch only
feeds the omitted `reason` string and cannot raise there since
`current_price != 0`. -/
def determine_valuation_status (dcf_result : SymbolDcfResultDict)
    (fd : FinancialData) : ValuationStatusResult :=
  let intrinsic_value := dcf_result.intrinsic_share_price.getD 0
  let margin_price := dcf_result.final_value_with_margin_of_safety.getD 0
  let current_price := fd.current_price.getD 0
  if current_price = 0 then
    { status := "UNKNOWN", recommendation := "RESEARCH", confidence := "LOW" }
  else if current_price ≤ margin_price then
    { status := "UNDERVALUED", recommendation := "BUY", confidence := "HIGH" }
  else if current_price ≤ intrinsic_value then
    { status := "FAIRLY VALUED", recommendation := "HOLD", confidence := "MEDIUM" }
  else
    { status := "OVERVALUED", recommendation := "AVOID", confidence := "HIGH" }

/-! ### Result extractors (0 on a failed run) -/

/-- Intrinsic share price of a successful module-level run, 0 on failure. -/
def intrinsicOf (e : Except String DCFResult) : ℚ :=
  match e with
  | Except.ok r => r.intrinsic_share_price
  | Except.error _ => 0

/-- Equity value of a successful module-level run, 0 on failure. -/
def equityOf (e : Except String DCFResult) : ℚ :=
  match e with
  | Except.ok r => r.equity_value
  | Except.error _ => 0

/-- Enterprise value of a successful module-level run, 0 on failure. -/
def enterpriseOf (e : Except String DCFResult) : ℚ :=
  match e with
  | Except.ok r => r.enterprise_value
  | Except.error _ => 0

/-- Net debt of a successful module-level run, 0 on failure. -/
def netDebtOf (e : Except String DCFResult) : ℚ :=
  match e with
  | Except.ok r => r.net_debt
  | Except.error _ => 0

/-- Sum of discounted FCFs of a successful module-level run, 0 on failure. -/
def totalPvOf (e : Except String DCFResult) : ℚ :=
  match e with
  | Except.ok r => r.total_pv_fcfs
  | Except.error _ => 0

/-- Terminal value of a successful module-level run, 0 on failure. -/
def terminalValueOf (e : Except String DCFResult) : ℚ :=
  match e with
  | Except.ok r => r.terminal_value
  | Except.error _ => 0

/-- Present value of the terminal value of a successful module-level run,
0 on failure. -/
def pvTerminalOf (e : Except String DCFResult) : ℚ :=
  match e with
  | Except.ok r => r.pv_terminal_value
  | Except.error _ => 0

/-! ### Closed forms of the projection loop -/

theorem fcfSeq_shift (g5 g10 prev : ℚ) (i k : ℕ) :
    fcfSeq g5 g10 prev i (k + 1) =
      fcfSeq g5 g10 (prev * (1 + segGrowth g5 g10 i)) (i + 1) k := by
  induction k with
  | zero => simp [fcfSeq]
  | succ k ih =>
      have hidx : i + (k + 1) + 1 = (i + 1) + k + 1 := by omega
      have h1 : fcfSeq g5 g10 prev i (k + 1 + 1) =
          fcfSeq g5 g10 prev i (k + 1) * (1 + segGrowth g5 g10 (i + (k + 1) + 1)) := rfl
      have h2 : fcfSeq g5 g10 (prev * (1 + segGrowth g5 g10 i)) (i + 1) (k + 1) =
          fcfSeq g5 g10 (prev * (1 + segGrowth g5 g10 i)) (i + 1) k *
            (1 + segGrowth g5 g10 ((i + 1) + k + 1)) := rfl
      rw [h1, h2, ih, hidx]

theorem projectFcfsFrom_eq_map (g5 g10 : ℚ) (n : ℕ) :
    ∀ (prev : ℚ) (i : ℕ),
      projectFcfsFrom g5 g10 prev i n = (List.range n).map (fcfSeq g5 g10 prev i) := by
  induction n with
  | zero => intro prev i; simp [projectFcfsFrom]
  | succ n ih =>
      intro prev i
      rw [projectFcfsFrom, ih, List.range_succ_eq_map]
      simp only [List.map_cons, List.map_map]
      refine congrArg₂ List.cons rfl ?_
      refine List.map_congr_left ?_
      intro k _
      simp only [Function.comp_apply, Nat.succ_eq_add_one]
      exact (fcfSeq_shift g5 g10 prev i k).symm

theorem projectFcfs_eq_map (base g5 g10 : ℚ) (n : ℕ) :
    projectFcfs base g5 g10 n = (List.range n).map (fcfAt base g5 g10) := by
  rw [projectFcfs, projectFcfsFrom_eq_map]
  rfl

theorem projectFcfs_length (base g5 g10 : ℚ) (n : ℕ) :
    (projectFcfs base g5 g10 n).length = n := by
  rw [projectFcfs_eq_map]
  simp

theorem projectFcfs_getD (base g5 g10 : ℚ) (n k : ℕ) (hk : k < n) :
    (projectFcfs base g5 g10 n).getD k 0 = fcfAt base g5 g10 k := by
  rw [projectFcfs_eq_map]
  rw [List.getD_eq_getElem?_getD, List.getElem?_map, List.getElem?_range hk]
  rfl

theorem projectFcfs_getLast (base g5 g10 : ℚ) (n : ℕ) :
    (projectFcfs base g5 g10 (n + 1)).getLast? = some (fcfAt base g5 g10 n) := by
  rw [projectFcfs_eq_map, List.range_succ, List.map_append]
  simp

/-- The recurrence of the projection loop, 0-indexed. -/
theorem fcfAt_succ (base g5 g10 : ℚ) (k : ℕ) :
    fcfAt base g5 g10 (k + 1) = fcfAt base g5 g10 k * (1 + segGrowth g5 g10 (k + 1)) := by
  show fcfSeq g5 g10 base 0 (k + 1) = fcfSeq g5 g10 base 0 k * (1 + segGrowth g5 g10 (k + 1))
  rw [fcfSeq]
  norm_num

/-! ### Closed forms of the discounting comprehension -/

theorem pvList_ok (r : ℚ) (hr : 1 + r ≠ 0) :
    ∀ (l : List ℚ) (i : ℕ), pvList r i l = Except.ok (pvListPure r i l) := by
  intro l
  induction l with
  | nil => intro i; rfl
  | cons a t ih =>
      intro i
      simp [pvList, pvListPure, pydiv, pow_ne_zero (i + 1) hr, ih (i + 1), bind, Except.bind]

theorem pvList_err (r : ℚ) (hr : 1 + r = 0) (a : ℚ) (t : List ℚ) (i : ℕ) :
    pvList r i (a :: t) = Except.error "ZeroDivisionError" := by
  simp [pvList, pydiv, hr, bind, Except.bind]

theorem pvListPure_length (r : ℚ) :
    ∀ (l : List ℚ) (i : ℕ), (pvListPure r i l).length = l.length := by
  intro l
  induction l with
  | nil => intro i; rfl
  | cons a t ih => intro i; simp [pvListPure, ih (i + 1)]

theorem pvListPure_getD (r : ℚ) :
    ∀ (l : List ℚ) (i k : ℕ), k < l.length →
      (pvListPure r i l).getD k 0 = l.getD k 0 / (1 + r) ^ (i + k + 1) := by
  intro l
  induction l with
  | nil => intro i k hk; simp at hk
  | cons a t ih =>
      intro i k hk
      cases k with
      | zero => simp [pvListPure]
      | succ k =>
          have hk' : k < t.length := by simpa using hk
          have hidx : (i + 1) + k + 1 = i + (k + 1) + 1 := by omega
          simp only [pvListPure, List.getD_cons_succ]
          rw [ih (i + 1) k hk', hidx]

theorem pvListPure_sum (r : ℚ) :
    ∀ (l : List ℚ) (i : ℕ),
      (pvListPure r i l).sum =
        ∑ k in Finset.range l.length, l.getD k 0 / (1 + r) ^ (i + k + 1) := by
  intro l
  induction l with
  | nil => intro i; simp [pvListPure]
  | cons a t ih =>
      intro i
      simp only [pvListPure, List.sum_cons, ih (i + 1), List.length_cons]
      rw [Finset.sum_range_succ']
      simp only [List.getD_cons_succ, List.getD_cons_zero]
      rw [add_comm]
      congr 1
      refine Finset.sum_congr rfl ?_
      intro k _
      congr 2
      omega

/-- The per-year present values of the module-level run, as a `Finset` sum. -/
theorem totalPv_eq_sum (base g5 g10 r : ℚ) (years : ℕ) :
    (pvListPure r 0 (projectFcfs base g5 g10 years)).sum =
      ∑ k in Finset.range years, fcfAt base g5 g10 k / (1 + r) ^ (k + 1) := by
  rw [pvListPure_sum, projectFcfs_length]
  refine Finset.sum_congr rfl ?_
  intro k hk
  rw [projectFcfs_getD base g5 g10 years k (Finset.mem_range.mp hk)]
  norm_num

/-! ### Closed form of a successful `dcf_intrinsic_valuation` run -/

/-- With at least one projection year and no zero denominator, the
module-level DCF run succeeds and every output is the corresponding closed
form. -/
theorem dcf_ok_form (base g5 g10 g r debt cash sc fv mel mos : ℚ) (n : ℕ)
    (hr : 1 + r ≠ 0) (hrg : r ≠ g) (hsh : numberOfShares sc fv ≠ 0) :
    dcf_intrinsic_valuation base g5 g10 g r debt cash sc fv mel mos (n + 1) =
      Except.ok
        { projected_fcfs := projectFcfs base g5 g10 (n + 1)
          total_pv_fcfs := (pvListPure r 0 (projectFcfs base g5 g10 (n + 1))).sum
          pv_terminal_value :=
            fcfAt base g5 g10 n * (1 + g) / (r - g) / (1 + r) ^ (n + 1)
          enterprise_value :=
            (pvListPure r 0 (projectFcfs base g5 g10 (n + 1))).sum +
              fcfAt base g5 g10 n * (1 + g) / (r - g) / (1 + r) ^ (n + 1)
          total_debt := debt
          cash_and_equivalents := cash
          net_debt := debt - cash
          equity_value :=
            (pvListPure r 0 (projectFcfs base g5 g10 (n + 1))).sum +
              fcfAt base g5 g10 n * (1 + g) / (r - g) / (1 + r) ^ (n + 1) -
              (debt - cash)
          share_capital := sc
          face_value := fv
          number_of_shares := numberOfShares sc fv
          intrinsic_share_price :=
            ((pvListPure r 0 (projectFcfs base g5 g10 (n + 1))).sum +
              fcfAt base g5 g10 n * (1 + g) / (r - g) / (1 + r) ^ (n + 1) -
              (debt - cash)) / numberOfShares sc fv
          model_error_leeway_pct := mel * 100
          lower_band :=
            ((pvListPure r 0 (projectFcfs base g5 g10 (n + 1))).sum +
              fcfAt base g5 g10 n * (1 + g) / (r - g) / (1 + r) ^ (n + 1) -
              (debt - cash)) / numberOfShares sc fv * (1 - mel)
          upper_band :=
            ((pvListPure r 0 (projectFcfs base g5 g10 (n + 1))).sum +
              fcfAt base g5 g10 n * (1 + g) / (r - g) / (1 + r) ^ (n + 1) -
              (debt - cash)) / numberOfShares sc fv * (1 + mel)
          margin_of_safety_pct := mos * 100
          final_value_mos :=
            ((pvListPure r 0 (projectFcfs base g5 g10 (n + 1))).sum +
              fcfAt base g5 g10 n * (1 + g) / (r - g) / (1 + r) ^ (n + 1) -
              (debt - cash)) / numberOfShares sc fv * (1 - mos)
          terminal_year_cash_flow := fcfAt base g5 g10 n
          terminal_value := fcfAt base g5 g10 n * (1 + g) / (r - g) } := by
  have hpow : (1 + r) ^ (n + 1) ≠ 0 := pow_ne_zero (n + 1) hr
  have hsub : r - g ≠ 0 := sub_ne_zero.mpr hrg
  rw [dcf_intrinsic_valuation]
  rw [pvList_ok r hr]
  rw [projectFcfs_getLast]
  simp [pydiv, hsub, hpow, hsh, bind, Except.bind]

/-- Failure characterization of the module-level DCF with at least one
projection year: the run fails exactly when a division by zero actually
occurs. -/
theorem dcf_isOk_iff (base g5 g10 g r debt cash sc fv mel mos : ℚ) (n : ℕ) :
    (dcf_intrinsic_valuation base g5 g10 g r debt cash sc fv mel mos (n + 1)).isOk = false ↔
      (1 + r = 0 ∨ r = g ∨ numberOfShares sc fv = 0) := by
  constructor
  · intro hfail
    by_contra hcon
    push_neg at hcon
    obtain ⟨h1, h2, h3⟩ := hcon
    rw [dcf_ok_form base g5 g10 g r debt cash sc fv mel mos n h1 h2 h3] at hfail
    simp [Except.isOk, Except.toBool] at hfail
  · intro hc
    rcases hc with h1 | h2 | h3
    · have hsplit : ∃ a t, projectFcfs base g5 g10 (n + 1) = a :: t := by
        cases hl : projectFcfs base g5 g10 (n + 1) with
        | nil =>
            have := projectFcfs_length base g5 g10 (n + 1)
            rw [hl] at this
            simp at this
        | cons a t => exact ⟨a, t, rfl⟩
      obtain ⟨a, t, hl⟩ := hsplit
      rw [dcf_intrinsic_valuation, hl, pvList_err r h1 a t 0]
      rfl
    · by_cases h1 : 1 + r = 0
      · have hsplit : ∃ a t, projectFcfs base g5 g10 (n + 1) = a :: t := by
          cases hl : projectFcfs base g5 g10 (n + 1) with
          | nil =>
              have := projectFcfs_length base g5 g10 (n + 1)
              rw [hl] at this
              simp at this
          | cons a t => exact ⟨a, t, rfl⟩
        obtain ⟨a, t, hl⟩ := hsplit
        rw [dcf_intrinsic_valuation, hl, pvList_err r h1 a t 0]
        rfl
      · rw [dcf_intrinsic_valuation, pvList_ok r h1, projectFcfs_getLast]
        have hsub : r - g = 0 := sub_eq_zero.mpr h2
        simp [pydiv, hsub, bind, Except.bind, Except.isOk, Except.toBool]
    · by_cases h1 : 1 + r = 0
      · have hsplit : ∃ a t, projectFcfs base g5 g10 (n + 1) = a :: t := by
          cases hl : projectFcfs base g5 g10 (n + 1) with
          | nil =>
              have := projectFcfs_length base g5 g10 (n + 1)
              rw [hl] at this
              simp at this
          | cons a t => exact ⟨a, t, rfl⟩
        obtain ⟨a, t, hl⟩ := hsplit
        rw [dcf_intrinsic_valuation, hl, pvList_err r h1 a t 0]
        rfl
      · by_cases h2 : r = g
        · rw [dcf_intrinsic_valuation, pvList_ok r h1, projectFcfs_getLast]
          have hsub : r - g = 0 := sub_eq_zero.mpr h2
          simp [pydiv, hsub, bind, Except.bind, Except.isOk, Except.toBool]
        · rw [dcf_intrinsic_valuation, pvList_ok r h1, projectFcfs_getLast]
          have hsub : r - g ≠ 0 := sub_ne_zero.mpr h2
          have hpow : (1 + r) ^ (n + 1) ≠ 0 := pow_ne_zero (n + 1) h1
          simp [pydiv, hsub, hpow, h3, bind, Except.bind, Except.isOk, Except.toBool]

/-! ### Closed forms of a successful `DCFAnalyzer.calculate_dcf_valuation` run -/

/-- The starting FCF the analyzer settles on (`fcf` after the
`if fcf <= 0:` fallback block). -/
def dcfInitialFcf (fd : FinancialData) : ℚ :=
  let fcf0 := fd.free_cash_flow.getD 0
  if fcf0 ≤ 0 then
    let operating_cf := fd.operating_cash_flow.getD 0
    let capex := fd.capital_expenditure.getD 0
    max (operating_cf - capex) (fd.revenue.getD 0 * (5/100))
  else fcf0

/-- `projected_fcfs` of the analyzer run. -/
def analyzerProjFcfs (fd : FinancialData) : List ℚ :=
  project_free_cash_flows (dcfInitialFcf fd) (determine_growth_rates fd)

/-- `projected_fcfs[-1]` of the analyzer run (the list always has five
entries). -/
def analyzerLastFcf (fd : FinancialData) : ℚ :=
  (analyzerProjFcfs fd).getLast?.getD 0

/-- `terminal_value` of the analyzer run. -/
def analyzerTerminalValue (a : DCFAnalyzer) (fd : FinancialData) : ℚ :=
  analyzerLastFcf fd * (1 + a.terminal_growth_rate) /
    (a.discount_rate - a.terminal_growth_rate)

/-- `pv_terminal` of the analyzer run. -/
def analyzerPvTerminal (a : DCFAnalyzer) (fd : FinancialData) : ℚ :=
  analyzerTerminalValue a fd / (1 + a.discount_rate) ^ (analyzerProjFcfs fd).length

/-- `enterprise_value` of the analyzer run. -/
def analyzerEnterprise (a : DCFAnalyzer) (fd : FinancialData) : ℚ :=
  (pvListPure a.discount_rate 0 (analyzerProjFcfs fd)).sum + analyzerPvTerminal a fd

/-- `net_debt` of the analyzer run. -/
def analyzerNetDebt (fd : FinancialData) : ℚ :=
  fd.total_debt.getD 0 - fd.cash_and_equivalents.getD 0

/-- `equity_value` of the analyzer run. -/
def analyzerEquity (a : DCFAnalyzer) (fd : FinancialData) : ℚ :=
  analyzerEnterprise a fd - analyzerNetDebt fd

/-- `intrinsic_value` of the analyzer run: note the `* 10` scaling of the
share count (source comment: "Convert Cr to individual shares"). -/
def analyzerIntrinsic (a : DCFAnalyzer) (fd : FinancialData) : ℚ :=
  if fd.shares_outstanding.getD 0 > 0 then
    analyzerEquity a fd / (fd.shares_outstanding.getD 0 * 10)
  else 0

theorem projectCfFrom_length : ∀ (l : List ℚ) (prev : ℚ),
    (projectCfFrom prev l).length = l.length := by
  intro l
  induction l with
  | nil => intro prev; rfl
  | cons g gs ih => intro prev; simp [projectCfFrom, ih]

theorem analyzerProjFcfs_length (fd : FinancialData) :
    (analyzerProjFcfs fd).length = 5 := by
  rw [analyzerProjFcfs, project_free_cash_flows, projectCfFrom_length]
  rfl

theorem analyzerProjFcfs_getLast (fd : FinancialData) :
    (analyzerProjFcfs fd).getLast? = some (analyzerLastFcf fd) := by
  cases hl : (analyzerProjFcfs fd).getLast? with
  | none =>
      have hnil := List.getLast?_eq_none_iff.mp hl
      have := analyzerProjFcfs_length fd
      rw [hnil] at this
      simp at this
  | some x =>
      rw [analyzerLastFcf, hl]
      rfl

/-- With no zero denominator, the analyzer `try` block succeeds and every
output is the corresponding closed form. -/
theorem body_ok_form (a : DCFAnalyzer) (fd : FinancialData)
    (hr : 1 + a.discount_rate ≠ 0)
    (hrg : a.discount_rate ≠ a.terminal_growth_rate) :
    calculate_dcf_valuation_body a fd =
      Except.ok
        { initial_fcf := dcfInitialFcf fd
          growth_rates := determine_growth_rates fd
          projected_fcfs := analyzerProjFcfs fd
          present_value_fcfs := pvListPure a.discount_rate 0 (analyzerProjFcfs fd)
          terminal_value := analyzerTerminalValue a fd
          pv_terminal_value := analyzerPvTerminal a fd
          enterprise_value := analyzerEnterprise a fd
          net_debt := analyzerNetDebt fd
          equity_value := analyzerEquity a fd
          shares_outstanding := fd.shares_outstanding.getD 0
          intrinsic_value_per_share := analyzerIntrinsic a fd
          current_price := fd.current_price.getD 0
          margin_of_safety :=
            calculate_margin_of_safety (analyzerIntrinsic a fd) (fd.current_price.getD 0)
          recommendation :=
            (get_investment_recommendation
              (calculate_margin_of_safety (analyzerIntrinsic a fd)
                (fd.current_price.getD 0)) fd).action
          confidence :=
            (get_investment_recommendation
              (calculate_margin_of_safety (analyzerIntrinsic a fd)
                (fd.current_price.getD 0)) fd).confidence
          upside_potential :=
            (get_investment_recommendation
              (calculate_margin_of_safety (analyzerIntrinsic a fd)
                (fd.current_price.getD 0)) fd).upside
          target_buy_price := analyzerIntrinsic a fd * (7/10)
          target_sell_price := analyzerIntrinsic a fd * (12/10)
          discount_rate := a.discount_rate
          terminal_growth_rate := a.terminal_growth_rate } := by
  have hsub : a.discount_rate - a.terminal_growth_rate ≠ 0 := sub_ne_zero.mpr hrg
  have hpow : (1 + a.discount_rate) ^ (analyzerProjFcfs fd).length ≠ 0 :=
    pow_ne_zero _ hr
  rw [calculate_dcf_valuation_body]
  rw [show project_free_cash_flows
        (if fd.free_cash_flow.getD 0 ≤ 0 then
          max (fd.operating_cash_flow.getD 0 - fd.capital_expenditure.getD 0)
            (fd.revenue.getD 0 * (5/100))
        else fd.free_cash_flow.getD 0) (determine_growth_rates fd) =
      analyzerProjFcfs fd from rfl]
  rw [calculate_present_values, pvList_ok _ hr, analyzerProjFcfs_getLast]
  simp only [bind, Except.bind, pydiv, if_neg hsub, if_neg hpow]
  simp only [analyzerTerminalValue, analyzerPvTerminal, analyzerEnterprise,
    analyzerEquity, analyzerNetDebt, analyzerIntrinsic, dcfInitialFcf]

/-! ### Claims -/

/-- C1 (counterexample): with `discount_rate = 0.01 <= terminal_growth_rate = 0.02`
and positive shares, the module-level DCF does not fail — it returns a result —
and `calculate_terminal_value` returns the fallback value 0 instead of raising;
so the claimed "fails with InvalidAssumption iff the assumptions are invalid,
and no result value is returned" is false on the code. -/
theorem claim_C1_counterexample :
    ((1:ℚ)/100 ≤ 2/100) ∧
    (dcf_intrinsic_valuation 1000 (1/10) (1/20) (2/100) (1/100) 0 0 100 1
      (1/10) (3/10) 10).isOk = true ∧
    calculate_terminal_value 1000 (2/100) (1/100) = 0 := by
  refine ⟨by norm_num, ?_, by norm_num [calculate_terminal_value]⟩
  have h10 : (10:ℕ) = 9 + 1 := rfl
  rw [h10, dcf_ok_form 1000 (1/10) (1/20) (2/100) (1/100) 0 0 100 1 (1/10) (3/10) 9
    (by norm_num) (by norm_num) (by norm_num [numberOfShares])]
  rfl

/-- C1 (amended): the module-level DCF performs no `InvalidAssumption`
validation.  With at least one projection year it fails (a raised
`ZeroDivisionError`) if and only if a division by zero actually occurs:
`discount_rate = terminal_growth_rate`, or `1 + discount_rate = 0`, or the
computed number of shares is zero.  In particular
`discount_rate < terminal_growth_rate` and non-positive share inputs that
still give a nonzero share count produce a result, not an error. -/
theorem claim_C1 (base g5 g10 g r debt cash sc fv mel mos : ℚ) (n : ℕ) :
    (dcf_intrinsic_valuation base g5 g10 g r debt cash sc fv mel mos (n + 1)).isOk = false ↔
      (1 + r = 0 ∨ r = g ∨ numberOfShares sc fv = 0) :=
  dcf_isOk_iff base g5 g10 g r debt cash sc fv mel mos n

/-- C2: on every successful configuration (`discount_rate > terminal_growth_rate`,
at least one projection year, nonzero denominators), the terminal value is the
last projected FCF times `(1 + terminal_growth_rate)` divided by
`(discount_rate - terminal_growth_rate)`, and its present value is the terminal
value divided by `(1 + discount_rate) ^ N` with `N` the number of projection
years. -/
theorem claim_C2 (base g5 g10 g r debt cash sc fv mel mos : ℚ) (n : ℕ)
    (hgr : g < r) (hr : 1 + r ≠ 0) (hsh : numberOfShares sc fv ≠ 0) :
    (dcf_intrinsic_valuation base g5 g10 g r debt cash sc fv mel mos (n + 1)).isOk = true ∧
    terminalValueOf (dcf_intrinsic_valuation base g5 g10 g r debt cash sc fv mel mos (n + 1)) =
      (projectFcfs base g5 g10 (n + 1)).getLast?.getD 0 * (1 + g) / (r - g) ∧
    pvTerminalOf (dcf_intrinsic_valuation base g5 g10 g r debt cash sc fv mel mos (n + 1)) =
      terminalValueOf (dcf_intrinsic_valuation base g5 g10 g r debt cash sc fv mel mos (n + 1)) /
        (1 + r) ^ (n + 1) := by
  have hrg : r ≠ g := ne_of_gt hgr
  rw [dcf_ok_form base g5 g10 g r debt cash sc fv mel mos n hr hrg hsh, projectFcfs_getLast]
  simp [terminalValueOf, pvTerminalOf, Except.isOk, Except.toBool, div_div]

/-- C2 witness at a concrete configuration. -/
theorem claim_C2_witness :
    (dcf_intrinsic_valuation 100 0 0 0 1 0 0 1 1 0 0 1).isOk = true ∧
    terminalValueOf (dcf_intrinsic_valuation 100 0 0 0 1 0 0 1 1 0 0 1) =
      (projectFcfs 100 0 0 1).getLast?.getD 0 * (1 + 0) / (1 - 0) ∧
    pvTerminalOf (dcf_intrinsic_valuation 100 0 0 0 1 0 0 1 1 0 0 1) =
      terminalValueOf (dcf_intrinsic_valuation 100 0 0 0 1 0 0 1 1 0 0 1) / (1 + 1) ^ 1 :=
  claim_C2 100 0 0 0 1 0 0 1 1 0 0 0 (by norm_num) (by norm_num)
    (by norm_num [numberOfShares])

/-- C3: the projected-FCF list has one entry per year of the (two-segment)
growth schedule, the per-year present-value list has the same length, and the
sequence obeys the recurrence: year `i` (0-indexed here) equals the previous
year's FCF — `base_fcf` for the first year — times `1 +` the rate of the
segment containing year `i`. -/
theorem claim_C3 (base g5 g10 r : ℚ) (years : ℕ) (hr : 1 + r ≠ 0) :
    (projectFcfs base g5 g10 years).length = years ∧
    (pvList r 0 (projectFcfs base g5 g10 years) =
        Except.ok (pvListPure r 0 (projectFcfs base g5 g10 years)) ∧
      (pvListPure r 0 (projectFcfs base g5 g10 years)).length = years) ∧
    ∀ i, i < years →
      (projectFcfs base g5 g10 years).getD i 0 =
        (if i = 0 then base else (projectFcfs base g5 g10 years).getD (i - 1) 0) *
          (1 + segGrowth g5 g10 i) := by
  refine ⟨projectFcfs_length base g5 g10 years,
    ⟨pvList_ok r hr (projectFcfs base g5 g10 years) 0,
     by rw [pvListPure_length, projectFcfs_length]⟩, ?_⟩
  intro i hi
  rw [projectFcfs_getD base g5 g10 years i hi]
  cases i with
  | zero => simp [fcfAt, fcfSeq]
  | succ k =>
      have hk : k < years := Nat.lt_of_succ_lt hi
      rw [fcfAt_succ]
      rw [if_neg (Nat.succ_ne_zero k), Nat.add_sub_cancel,
        projectFcfs_getD base g5 g10 years k hk]

/-- C3 witness at a concrete configuration. -/
theorem claim_C3_witness :
    (projectFcfs 100 0 0 2).length = 2 ∧
    (pvListPure 1 0 (projectFcfs 100 0 0 2)).length = 2 ∧
    (projectFcfs 100 0 0 2).getD 1 0 =
      (if (1:ℕ) = 0 then 100 else (projectFcfs 100 0 0 2).getD 0 0) *
        (1 + segGrowth 0 0 1) :=
  ⟨(claim_C3 100 0 0 1 2 (by norm_num)).1,
   (claim_C3 100 0 0 1 2 (by norm_num)).2.1.2,
   (claim_C3 100 0 0 1 2 (by norm_num)).2.2 1 (by norm_num)⟩

/-- C4: on every successful configuration, the `i`-th present value is the
`i`-th projected FCF divided by `(1 + discount_rate) ^ i` (1-indexed),
`enterprise_value` is the sum of the per-year present values plus the present
value of the terminal value, `net_debt = total_debt - cash_and_equivalents`,
and `equity_value = enterprise_value - net_debt`. -/
theorem claim_C4 (base g5 g10 g r debt cash sc fv mel mos : ℚ) (n : ℕ)
    (hr : 1 + r ≠ 0) (hrg : r ≠ g) (hsh : numberOfShares sc fv ≠ 0) :
    (pvList r 0 (projectFcfs base g5 g10 (n + 1)) =
        Except.ok (pvListPure r 0 (projectFcfs base g5 g10 (n + 1))) ∧
      ∀ k, k < n + 1 →
        (pvListPure r 0 (projectFcfs base g5 g10 (n + 1))).getD k 0 =
          (projectFcfs base g5 g10 (n + 1)).getD k 0 / (1 + r) ^ (k + 1)) ∧
    totalPvOf (dcf_intrinsic_valuation base g5 g10 g r debt cash sc fv mel mos (n + 1)) =
      (pvListPure r 0 (projectFcfs base g5 g10 (n + 1))).sum ∧
    enterpriseOf (dcf_intrinsic_valuation base g5 g10 g r debt cash sc fv mel mos (n + 1)) =
      totalPvOf (dcf_intrinsic_valuation base g5 g10 g r debt cash sc fv mel mos (n + 1)) +
        pvTerminalOf (dcf_intrinsic_valuation base g5 g10 g r debt cash sc fv mel mos (n + 1)) ∧
    netDebtOf (dcf_intrinsic_valuation base g5 g10 g r debt cash sc fv mel mos (n + 1)) =
      debt - cash ∧
    equityOf (dcf_intrinsic_valuation base g5 g10 g r debt cash sc fv mel mos (n + 1)) =
      enterpriseOf (dcf_intrinsic_valuation base g5 g10 g r debt cash sc fv mel mos (n + 1)) -
        netDebtOf (dcf_intrinsic_valuation base g5 g10 g r debt cash sc fv mel mos (n + 1)) := by
  refine ⟨⟨pvList_ok r hr (projectFcfs base g5 g10 (n + 1)) 0, ?_⟩, ?_⟩
  · intro k hk
    have hk' : k < (projectFcfs base g5 g10 (n + 1)).length := by
      rw [projectFcfs_length]; exact hk
    rw [pvListPure_getD r (projectFcfs base g5 g10 (n + 1)) 0 k hk']
    norm_num
  · rw [dcf_ok_form base g5 g10 g r debt cash sc fv mel mos n hr hrg hsh]
    simp [totalPvOf, enterpriseOf, pvTerminalOf, netDebtOf, equityOf]

/-- C4 witness at a concrete configuration. -/
theorem claim_C4_witness :
    (pvListPure 1 0 (projectFcfs 100 0 0 1)).getD 0 0 =
      (projectFcfs 100 0 0 1).getD 0 0 / (1 + 1) ^ (0 + 1) ∧
    netDebtOf (dcf_intrinsic_valuation 100 0 0 0 1 7 2 1 1 0 0 1) = 7 - 2 ∧
    equityOf (dcf_intrinsic_valuation 100 0 0 0 1 7 2 1 1 0 0 1) =
      enterpriseOf (dcf_intrinsic_valuation 100 0 0 0 1 7 2 1 1 0 0 1) -
        netDebtOf (dcf_intrinsic_valuation 100 0 0 0 1 7 2 1 1 0 0 1) :=
  ⟨(claim_C4 100 0 0 0 1 7 2 1 1 0 0 0 (by norm_num) (by norm_num)
      (by norm_num [numberOfShares])).1.2 0 (by norm_num),
   (claim_C4 100 0 0 0 1 7 2 1 1 0 0 0 (by norm_num) (by norm_num)
      (by norm_num [numberOfShares])).2.2.2.1,
   (claim_C4 100 0 0 0 1 7 2 1 1 0 0 0 (by norm_num) (by norm_num)
      (by norm_num [numberOfShares])).2.2.2.2⟩

/-- C5 (counterexample): a margin of safety of exactly 30 produces "BUY", not
"STRONG BUY", and exactly -30 produces "STRONG AVOID", not "AVOID", because
every threshold comparison in `_get_investment_recommendation` is strict;
the claimed inclusive-on-the-higher-tier tie-break is false on the code. -/
theorem claim_C5_counterexample :
    (get_investment_recommendation 30 {}).action = "BUY" ∧
    (get_investment_recommendation 30 {}).action ≠ "STRONG BUY" ∧
    (get_investment_recommendation (-30) {}).action = "STRONG AVOID" ∧
    (get_investment_recommendation (-30) {}).action ≠ "AVOID" := by
  norm_num [get_investment_recommendation]
  decide

/-- C5 (amended): every threshold tie-break is exclusive — an upside exactly
on a boundary falls into the lower tier: 30 maps to BUY, 15 to BUY (the
weaker band), 0 to HOLD, -15 to AVOID and -30 to STRONG AVOID, for every
financial-data dictionary (the quality-score pass never changes the action). -/
theorem claim_C5 (fd : FinancialData) :
    (get_investment_recommendation 30 fd).action = "BUY" ∧
    (get_investment_recommendation 15 fd).action = "BUY" ∧
    (get_investment_recommendation 0 fd).action = "HOLD" ∧
    (get_investment_recommendation (-15) fd).action = "AVOID" ∧
    (get_investment_recommendation (-30) fd).action = "STRONG AVOID" := by
  norm_num [get_investment_recommendation]

/-- C6 (counterexample): with a negative current price, the symbol analyzer's
`determine_valuation_status` does not return UNKNOWN — its guard tests
`current_price == 0` only — and instead proceeds to the comparison, here
yielding the actionable UNDERVALUED/BUY; so the claimed
"current_price <= 0 returns UNKNOWN" is false on the code. -/
theorem claim_C6_counterexample :
    ((-5 : ℚ) ≤ 0) ∧
    (determine_valuation_status
        { intrinsic_share_price := some 70, final_value_with_margin_of_safety := some 49 }
        { current_price := some (-5) }).status = "UNDERVALUED" ∧
    (determine_valuation_status
        { intrinsic_share_price := some 70, final_value_with_margin_of_safety := some 49 }
        { current_price := some (-5) }).recommendation = "BUY" ∧
    (determine_valuation_status
        { intrinsic_share_price := some 70, final_value_with_margin_of_safety := some 49 }
        { current_price := some (-5) }).status ≠ "UNKNOWN" := by
  norm_num [determine_valuation_status]
  decide

/-- C6 (amended): `determine_valuation_status` returns UNKNOWN exactly when
the current price equals 0 (a negative price falls through to the comparison
branches); the class-based analyzer treats `current_price <= 0` as upside 0
(no division-by-zero exception), and for every positive price the upside is
`(intrinsic - price) / price * 100`. -/
theorem claim_C6 (d : SymbolDcfResultDict) (fd : FinancialData) (iv cp : ℚ) :
    ((determine_valuation_status d fd).status = "UNKNOWN" ↔
      fd.current_price.getD 0 = 0) ∧
    (cp ≤ 0 → calculate_margin_of_safety iv cp = 0) ∧
    (0 < cp → calculate_margin_of_safety iv cp = (iv - cp) / cp * 100) := by
  refine ⟨?_, ?_, ?_⟩
  · rw [determine_valuation_status]
    split_ifs with h1 h2 h3 <;> simp [h1]
  · intro h
    rw [calculate_margin_of_safety, if_pos h]
  · intro h
    rw [calculate_margin_of_safety, if_neg (not_le.mpr h)]

/-- C6 witness at concrete prices. -/
theorem claim_C6_witness :
    (calculate_margin_of_safety 10 (-5) = 0) ∧
    (calculate_margin_of_safety 10 5 = (10 - 5) / 5 * 100) ∧
    ((determine_valuation_status {} {}).status = "UNKNOWN" ↔
      ({} : FinancialData).current_price.getD 0 = 0) :=
  ⟨(claim_C6 {} {} 10 (-5)).2.1 (by norm_num),
   (claim_C6 {} {} 10 5).2.2 (by norm_num),
   (claim_C6 {} {} 10 5).1⟩

/-- C10: `calculate_dcf_valuation` never propagates a failure of its `try`
body: whenever the body raises, the method returns the fallback dictionary,
whose recommendation is HOLD with LOW confidence, whose margin of safety and
upside are both -30.0, and whose intrinsic value per share is 0.7 times the
current price when that is positive and 100 otherwise. -/
theorem claim_C10 (a : DCFAnalyzer) (fd : FinancialData) (e : String)
    (herr : calculate_dcf_valuation_body a fd = Except.error e) :
    calculate_dcf_valuation a fd = get_fallback_dcf_result a fd ∧
    (calculate_dcf_valuation a fd).recommendation = "HOLD" ∧
    (calculate_dcf_valuation a fd).confidence = "LOW" ∧
    (calculate_dcf_valuation a fd).margin_of_safety = -30 ∧
    (calculate_dcf_valuation a fd).upside_potential = -30 ∧
    (calculate_dcf_valuation a fd).intrinsic_value_per_share =
      (if fd.current_price.getD 0 > 0 then fd.current_price.getD 0 * (7/10) else 100) := by
  have hc : calculate_dcf_valuation a fd = get_fallback_dcf_result a fd := by
    rw [calculate_dcf_valuation, herr]
  rw [hc]
  refine ⟨rfl, rfl, rfl, rfl, rfl, rfl⟩

/-- C10 witness: an analyzer constructed with
`discount_rate = terminal_growth_rate` makes the body raise
`ZeroDivisionError` on any input, and the fallback is returned. -/
theorem claim_C10_witness :
    calculate_dcf_valuation ⟨2/100, 2/100⟩ {} = get_fallback_dcf_result ⟨2/100, 2/100⟩ {} ∧
    (calculate_dcf_valuation ⟨2/100, 2/100⟩ {}).recommendation = "HOLD" ∧
    (calculate_dcf_valuation ⟨2/100, 2/100⟩ {}).confidence = "LOW" ∧
    (calculate_dcf_valuation ⟨2/100, 2/100⟩ {}).margin_of_safety = -30 ∧
    (calculate_dcf_valuation ⟨2/100, 2/100⟩ {}).upside_potential = -30 ∧
    (calculate_dcf_valuation ⟨2/100, 2/100⟩ {}).intrinsic_value_per_share =
      (if ({} : FinancialData).current_price.getD 0 > 0 then
        ({} : FinancialData).current_price.getD 0 * (7/10) else 100) :=
  claim_C10 ⟨2/100, 2/100⟩ {} "ZeroDivisionError" (by
    norm_num [calculate_dcf_valuation_body, calculate_present_values,
      determine_growth_rates, project_free_cash_flows, projectCfFrom, pvList,
      pydiv, bind, Except.bind, List.getLast?])

/-- A negative intrinsic value against any positive market price lands in the
final `else` of the recommendation ladder. -/
theorem strong_avoid_of_neg (iv p : ℚ) (fd : FinancialData)
    (hiv : iv < 0) (hp : 0 < p) :
    (get_investment_recommendation (calculate_margin_of_safety iv p) fd).action =
      "STRONG AVOID" := by
  have hm : calculate_margin_of_safety iv p < -30 := by
    rw [calculate_margin_of_safety, if_neg (not_le.mpr hp)]
    have h1 : (iv - p) / p < -1 := by
      rw [div_lt_iff₀ hp]
      linarith
    linarith
  set m := calculate_margin_of_safety iv p with hmdef
  have h30 : ¬(m > 30) := by linarith
  have h15 : ¬(m > 15) := by linarith
  have h0 : ¬(m > 0) := by linarith
  have hn15 : ¬(m > -15) := by linarith
  have hn30 : ¬(m > -30) := by linarith
  simp [get_investment_recommendation, h30, h15, h0, hn15, hn30]

/-- C7: a negative `base_fcf` of -500 with the two-stage 10%/5% schedule,
2% terminal growth, 12% discount rate, no debt or cash, and 100 shares is
accepted and computed as given: the run succeeds, the resulting intrinsic
share price is negative, and the recommendation against any positive current
price is STRONG AVOID. -/
theorem claim_C7 :
    (dcf_intrinsic_valuation (-500) (1/10) (1/20) (2/100) (12/100) 0 0 100 1
        (1/10) (3/10) 10).isOk = true ∧
    intrinsicOf (dcf_intrinsic_valuation (-500) (1/10) (1/20) (2/100) (12/100) 0 0 100 1
        (1/10) (3/10) 10) < 0 ∧
    ∀ p fd, 0 < p →
      (get_investment_recommendation
        (calculate_margin_of_safety
          (intrinsicOf (dcf_intrinsic_valuation (-500) (1/10) (1/20) (2/100) (12/100)
            0 0 100 1 (1/10) (3/10) 10)) p) fd).action = "STRONG AVOID" := by
  have hneg : intrinsicOf (dcf_intrinsic_valuation (-500) (1/10) (1/20) (2/100) (12/100)
      0 0 100 1 (1/10) (3/10) 10) < 0 := by
    have h10 : (10:ℕ) = 9 + 1 := rfl
    rw [h10, dcf_ok_form (-500) (1/10) (1/20) (2/100) (12/100) 0 0 100 1 (1/10) (3/10) 9
      (by norm_num) (by norm_num) (by norm_num [numberOfShares])]
    simp only [intrinsicOf]
    norm_num [projectFcfs, projectFcfsFrom, segGrowth, pvListPure, fcfAt, fcfSeq,
      numberOfShares]
  have hok : (dcf_intrinsic_valuation (-500) (1/10) (1/20) (2/100) (12/100) 0 0 100 1
      (1/10) (3/10) 10).isOk = true := by
    cases hd : dcf_intrinsic_valuation (-500) (1/10) (1/20) (2/100) (12/100) 0 0 100 1
        (1/10) (3/10) 10 with
    | ok r => rfl
    | error e =>
        rw [hd] at hneg
        simp [intrinsicOf] at hneg
  exact ⟨hok, hneg, fun p fd hp => strong_avoid_of_neg _ p fd hneg hp⟩

/-- C7 witness: the universally quantified recommendation conjunct at the
concrete price 1. -/
theorem claim_C7_witness :
    (get_investment_recommendation
      (calculate_margin_of_safety
        (intrinsicOf (dcf_intrinsic_valuation (-500) (1/10) (1/20) (2/100) (12/100)
          0 0 100 1 (1/10) (3/10) 10)) 1) {}).action = "STRONG AVOID" :=
  claim_C7.2.2 1 {} (by norm_num)

/-- Every projected FCF is positive when the base FCF is positive and each
growth rate exceeds -100%. -/
theorem fcfAt_pos (base g5 g10 : ℚ) (hb : 0 < base) (h5 : -1 < g5) (h10 : -1 < g10) :
    ∀ k, 0 < fcfAt base g5 g10 k := by
  have hseg : ∀ i, 0 < 1 + segGrowth g5 g10 i := by
    intro i
    rw [segGrowth]
    split_ifs <;> linarith
  intro k
  induction k with
  | zero =>
      show 0 < base * (1 + segGrowth g5 g10 0)
      exact mul_pos hb (hseg 0)
  | succ k ih =>
      rw [fcfAt_succ]
      exact mul_pos ih (hseg (k + 1))

/-- C8 (counterexample): with `base_fcf = 0` — a valid input per the spec —
raising the discount rate from 12% to 13% leaves the intrinsic share price
unchanged (both runs succeed and return 0), so the claimed strict decrease
for every valid input is false on the code. -/
theorem claim_C8_counterexample :
    ((2:ℚ)/100 < 12/100 ∧ (12:ℚ)/100 < 13/100) ∧
    (dcf_intrinsic_valuation 0 (1/10) (1/20) (2/100) (12/100) 0 0 100 1
        (1/10) (3/10) 10).isOk = true ∧
    (dcf_intrinsic_valuation 0 (1/10) (1/20) (2/100) (13/100) 0 0 100 1
        (1/10) (3/10) 10).isOk = true ∧
    ¬(intrinsicOf (dcf_intrinsic_valuation 0 (1/10) (1/20) (2/100) (13/100) 0 0 100 1
        (1/10) (3/10) 10) <
      intrinsicOf (dcf_intrinsic_valuation 0 (1/10) (1/20) (2/100) (12/100) 0 0 100 1
        (1/10) (3/10) 10)) := by
  have h10 : (10:ℕ) = 9 + 1 := rfl
  rw [h10, dcf_ok_form 0 (1/10) (1/20) (2/100) (12/100) 0 0 100 1 (1/10) (3/10) 9
      (by norm_num) (by norm_num) (by norm_num [numberOfShares]),
    dcf_ok_form 0 (1/10) (1/20) (2/100) (13/100) 0 0 100 1 (1/10) (3/10) 9
      (by norm_num) (by norm_num) (by norm_num [numberOfShares])]
  refine ⟨by norm_num, rfl, rfl, ?_⟩
  simp only [intrinsicOf]
  norm_num [projectFcfs, projectFcfsFrom, segGrowth, pvListPure, fcfAt, fcfSeq,
    numberOfShares]

/-- C8 (amended): with a strictly positive `base_fcf` and every growth rate
(both schedule stages and terminal) above -100%, a strictly larger discount
rate — both exceeding the terminal growth rate — produces a strictly smaller
intrinsic value per share, for every positive computed share count. -/
theorem claim_C8 (base g5 g10 g r1 r2 debt cash sc fv mel mos : ℚ) (n : ℕ)
    (hb : 0 < base) (h5 : -1 < g5) (h10 : -1 < g10) (hg : -1 < g)
    (hgr : g < r1) (hrr : r1 < r2) (hsh : 0 < numberOfShares sc fv) :
    intrinsicOf (dcf_intrinsic_valuation base g5 g10 g r2 debt cash sc fv mel mos (n + 1)) <
      intrinsicOf (dcf_intrinsic_valuation base g5 g10 g r1 debt cash sc fv mel mos (n + 1)) := by
  have h1r1 : (0:ℚ) < 1 + r1 := by linarith
  have h1r2 : (0:ℚ) < 1 + r2 := by linarith
  have hr1 : (1:ℚ) + r1 ≠ 0 := ne_of_gt h1r1
  have hr2 : (1:ℚ) + r2 ≠ 0 := ne_of_gt h1r2
  have hrg1 : r1 ≠ g := ne_of_gt hgr
  have hrg2 : r2 ≠ g := ne_of_gt (lt_trans hgr hrr)
  have hshne : numberOfShares sc fv ≠ 0 := ne_of_gt hsh
  have hfpos := fcfAt_pos base g5 g10 hb h5 h10
  have hS : ∑ k in Finset.range (n + 1), fcfAt base g5 g10 k / (1 + r2) ^ (k + 1) <
      ∑ k in Finset.range (n + 1), fcfAt base g5 g10 k / (1 + r1) ^ (k + 1) := by
    apply Finset.sum_lt_sum_of_nonempty (Finset.nonempty_range_iff.mpr (Nat.succ_ne_zero n))
    intro k _
    exact div_lt_div_of_pos_left (hfpos k) (pow_pos h1r1 (k + 1))
      (pow_lt_pow_left₀ (by linarith) (le_of_lt h1r1) (Nat.succ_ne_zero k))
  have hT : fcfAt base g5 g10 n * (1 + g) / (r2 - g) / (1 + r2) ^ (n + 1) <
      fcfAt base g5 g10 n * (1 + g) / (r1 - g) / (1 + r1) ^ (n + 1) := by
    rw [div_div, div_div]
    apply div_lt_div_of_pos_left (mul_pos (hfpos n) (by linarith))
      (mul_pos (by linarith) (pow_pos h1r1 (n + 1)))
    exact mul_lt_mul'' (by linarith)
      (pow_lt_pow_left₀ (by linarith) (le_of_lt h1r1) (Nat.succ_ne_zero n))
      (by linarith) (le_of_lt (pow_pos h1r1 (n + 1)))
  rw [dcf_ok_form base g5 g10 g r1 debt cash sc fv mel mos n hr1 hrg1 hshne,
    dcf_ok_form base g5 g10 g r2 debt cash sc fv mel mos n hr2 hrg2 hshne]
  simp only [intrinsicOf]
  rw [totalPv_eq_sum base g5 g10 r1 (n + 1), totalPv_eq_sum base g5 g10 r2 (n + 1)]
  rw [div_lt_div_iff_of_pos_right hsh]
  linarith [hS, hT]

/-- C8 witness at a concrete pair of discount rates. -/
theorem claim_C8_witness :
    intrinsicOf (dcf_intrinsic_valuation 100 0 0 0 3 0 0 1 1 0 0 1) <
      intrinsicOf (dcf_intrinsic_valuation 100 0 0 0 1 0 0 1 1 0 0 1) :=
  claim_C8 100 0 0 0 1 3 0 0 1 1 0 0 0 (by norm_num) (by norm_num) (by norm_num)
    (by norm_num) (by norm_num) (by norm_num) (by norm_num [numberOfShares])

/-- C9 (counterexample): in the class-based analyzer the intrinsic value per
share is not `equity_value / shares_outstanding`: an additional factor of 10
is applied to the share count (`shares_outstanding * 10`), so on a concrete
profitable company the claimed equality fails. -/
theorem claim_C9_counterexample :
    (calculate_dcf_valuation ⟨12/100, 2/100⟩
        { free_cash_flow := some 1000, revenue := some 10000,
          shares_outstanding := some 100, current_price := some 50 }).shares_outstanding = 100 ∧
    (calculate_dcf_valuation ⟨12/100, 2/100⟩
        { free_cash_flow := some 1000, revenue := some 10000,
          shares_outstanding := some 100, current_price := some 50 }).intrinsic_value_per_share ≠
      (calculate_dcf_valuation ⟨12/100, 2/100⟩
        { free_cash_flow := some 1000, revenue := some 10000,
          shares_outstanding := some 100, current_price := some 50 }).equity_value /
        (calculate_dcf_valuation ⟨12/100, 2/100⟩
          { free_cash_flow := some 1000, revenue := some 10000,
            shares_outstanding := some 100, current_price := some 50 }).shares_outstanding := by
  have hE : 0 < analyzerEquity ⟨12/100, 2/100⟩
      { free_cash_flow := some 1000, revenue := some 10000,
        shares_outstanding := some 100, current_price := some 50 } := by
    norm_num [analyzerEquity, analyzerEnterprise, analyzerPvTerminal,
      analyzerTerminalValue, analyzerLastFcf, analyzerProjFcfs, dcfInitialFcf,
      determine_growth_rates, project_free_cash_flows, projectCfFrom, pvListPure,
      analyzerNetDebt, List.getLast?]
  rw [calculate_dcf_valuation, body_ok_form _ _ (by norm_num) (by norm_num)]
  refine ⟨rfl, ?_⟩
  dsimp only
  rw [analyzerIntrinsic]
  simp only [Option.getD_some]
  rw [if_pos (by norm_num : (100:ℚ) > 0)]
  intro hcontra
  have hz : analyzerEquity ⟨12/100, 2/100⟩
      { free_cash_flow := some 1000, revenue := some 10000,
        shares_outstanding := some 100, current_price := some 50 } = 0 := by linarith
  rw [hz] at hE
  exact lt_irrefl 0 hE


/-- C9 (amended): the module-level DCF divides equity exactly by its computed
share count (`share_capital / face_value`), and doubling the share capital
exactly halves the intrinsic share price; the class-based analyzer divides by
`shares_outstanding * 10` — an extra factor of 10 — yet doubling
`shares_outstanding` still exactly halves its intrinsic value per share. -/
theorem claim_C9 (base g5 g10 g r debt cash sc fv mel mos : ℚ) (n : ℕ)
    (a : DCFAnalyzer) (fd : FinancialData) (s : ℚ)
    (hr : 1 + r ≠ 0) (hrg : r ≠ g) (hfv : fv ≠ 0) (hsh : numberOfShares sc fv ≠ 0)
    (ha1 : 1 + a.discount_rate ≠ 0) (ha2 : a.discount_rate ≠ a.terminal_growth_rate)
    (hs : fd.shares_outstanding = some s) (hspos : 0 < s) :
    intrinsicOf (dcf_intrinsic_valuation base g5 g10 g r debt cash sc fv mel mos (n + 1)) =
      equityOf (dcf_intrinsic_valuation base g5 g10 g r debt cash sc fv mel mos (n + 1)) /
        numberOfShares sc fv ∧
    intrinsicOf (dcf_intrinsic_valuation base g5 g10 g r debt cash (2 * sc) fv mel mos (n + 1)) =
      intrinsicOf (dcf_intrinsic_valuation base g5 g10 g r debt cash sc fv mel mos (n + 1)) / 2 ∧
    (calculate_dcf_valuation a fd).intrinsic_value_per_share =
      (calculate_dcf_valuation a fd).equity_value /
        ((calculate_dcf_valuation a fd).shares_outstanding * 10) ∧
    (calculate_dcf_valuation a
        { fd with shares_outstanding := some (2 * s) }).intrinsic_value_per_share =
      (calculate_dcf_valuation a fd).intrinsic_value_per_share / 2 := by
  have hNs : numberOfShares sc fv = sc / fv := by rw [numberOfShares, if_pos hfv]
  have hsc : sc ≠ 0 := by
    intro h
    apply hsh
    rw [hNs, h, zero_div]
  have hNs2 : numberOfShares (2 * sc) fv = 2 * (sc / fv) := by
    rw [numberOfShares, if_pos hfv, mul_div_assoc]
  have hsh2 : numberOfShares (2 * sc) fv ≠ 0 := by
    rw [hNs2]
    exact mul_ne_zero two_ne_zero (hNs ▸ hsh)
  have hhalf : ∀ x y : ℚ, x / (2 * y) = x / y / 2 := by
    intro x y
    rw [div_div, mul_comm]
  refine ⟨?_, ?_, ?_, ?_⟩
  · rw [dcf_ok_form base g5 g10 g r debt cash sc fv mel mos n hr hrg hsh]
    simp only [intrinsicOf, equityOf]
  · rw [dcf_ok_form base g5 g10 g r debt cash sc fv mel mos n hr hrg hsh,
      dcf_ok_form base g5 g10 g r debt cash (2 * sc) fv mel mos n hr hrg hsh2]
    simp only [intrinsicOf]
    rw [hNs, hNs2]
    exact hhalf _ _
  · rw [calculate_dcf_valuation, body_ok_form a fd ha1 ha2]
    dsimp only
    rw [analyzerIntrinsic, hs, Option.getD_some, if_pos hspos]
  · rw [calculate_dcf_valuation,
      body_ok_form a { fd with shares_outstanding := some (2 * s) } ha1 ha2]
    rw [calculate_dcf_valuation, body_ok_form a fd ha1 ha2]
    dsimp only
    rw [analyzerIntrinsic, analyzerIntrinsic]
    simp only [hs, Option.getD_some]
    rw [if_pos hspos, if_pos (by linarith : (0:ℚ) < 2 * s)]
    have hEeq : analyzerEquity a { fd with shares_outstanding := some (2 * s) } =
        analyzerEquity a fd := rfl
    rw [hEeq]
    rw [show (2 * s) * 10 = 2 * (s * 10) by ring]
    exact hhalf _ _

/-- C9 witness at a concrete configuration. -/
theorem claim_C9_witness :
    intrinsicOf (dcf_intrinsic_valuation 100 0 0 0 1 0 0 1 1 0 0 1) =
      equityOf (dcf_intrinsic_valuation 100 0 0 0 1 0 0 1 1 0 0 1) /
        numberOfShares 1 1 ∧
    intrinsicOf (dcf_intrinsic_valuation 100 0 0 0 1 0 0 (2 * 1) 1 0 0 1) =
      intrinsicOf (dcf_intrinsic_valuation 100 0 0 0 1 0 0 1 1 0 0 1) / 2 ∧
    (calculate_dcf_valuation ⟨1, 0⟩ { shares_outstanding := some 1 }).intrinsic_value_per_share =
      (calculate_dcf_valuation ⟨1, 0⟩ { shares_outstanding := some 1 }).equity_value /
        ((calculate_dcf_valuation ⟨1, 0⟩ { shares_outstanding := some 1 }).shares_outstanding * 10) ∧
    (calculate_dcf_valuation ⟨1, 0⟩
        { ({ shares_outstanding := some 1 } : FinancialData) with
          shares_outstanding := some (2 * 1) }).intrinsic_value_per_share =
      (calculate_dcf_valuation ⟨1, 0⟩ { shares_outstanding := some 1 }).intrinsic_value_per_share / 2 :=
  claim_C9 100 0 0 0 1 0 0 1 1 0 0 0 ⟨1, 0⟩ { shares_outstanding := some 1 } 1
    (by norm_num) (by norm_num) (by norm_num) (by norm_num [numberOfShares])
    (by norm_num) (by norm_num) rfl (by norm_num)

end Niveshak
